import Mathlib

/-!
Shallow embedding of the MXMNet training script (src/main.py) for checking its
natural-language specification.  Numeric values (losses, learning rates,
parameters) are modelled as rationals; the opaque collaborators (the GNN model,
the optimizer internals, the data loader) are abstracted exactly as the spec
prescribes: the model is a black-box map from parameters and a batch to
per-example predictions, and per-epoch validation losses / test MAEs enter the
loop as inputs.
-/

namespace MXMNet

/-- Checkpoint record built each epoch (main.py lines 228-234).  The opaque
state mappings (`state_dict`, `optimizer`, `scheduler`) are elided; the two
fields the control flow reads are kept.  `epoch` is `epoch + 1`, the next
epoch to run, and `valid_loss_min` is the value stored under that key. -/
structure Checkpoint where
  epoch : Nat
  valid_loss_min : ℚ
deriving DecidableEq, Repr

/-- Record of which checkpoint artifacts have been written: `periodic` collects
the records written to the per-epoch periodic path, `best` the records written
to the best-artifact path. -/
structure Saves where
  periodic : List Checkpoint
  best : List Checkpoint
deriving DecidableEq, Repr

/-- Modelled from the spec: `save_ckp` lives in utils.py, which is not under
src/.  Spec 4.3: always overwrite the periodic path with the current record;
additionally overwrite the best path with the same record iff `is_best`. -/
def save_ckp (ckpt : Checkpoint) (is_best : Bool) (s : Saves) : Saves :=
  { periodic := s.periodic ++ [ckpt],
    best := if is_best then s.best ++ [ckpt] else s.best }

/-- Modelled from the spec: `load_ckp` lives in utils.py, which is not under
src/.  Spec 4.3: `load` returns (next epoch, best validation loss recorded);
the restored opaque state mappings are elided. -/
def load_ckp (c : Checkpoint) : Nat × ℚ :=
  (c.epoch, c.valid_loss_min)

/-- State threaded through the epoch loop of main.py (lines 198-257):
best-epoch tracker, best validation loss, the `test_loss` variable (absent
before its first assignment), the epochs at which test-set evaluation ran,
the checkpoint artifacts written, and the per-epoch console reports
`(epoch + 1, test_loss)`. -/
structure LoopState where
  bestEpoch : Option Nat
  bestValLoss : Option ℚ
  testLoss : Option ℚ
  testRuns : List Nat
  saves : Saves
  reports : List (Nat × Option ℚ)
deriving DecidableEq, Repr

/-- Condition of main.py line 236: `best_val_loss is None or val_loss <= best_val_loss`. -/
def isBestCond (best : Option ℚ) (v : ℚ) : Bool :=
  match best with
  | none => true
  | some b => decide (v ≤ b)

/-- Loop state before the first epoch (main.py lines 198-199): both best
trackers are `None`, `test_loss` unassigned, nothing written yet. -/
def initState : LoopState :=
  { bestEpoch := none, bestValLoss := none, testLoss := none,
    testRuns := [], saves := { periodic := [], best := [] }, reports := [] }

/-- Epoch body after training (main.py lines 228-257), for 0-indexed epoch `e`
with validation MAE `v`; `f e` is the test-set MAE the Evaluator would report
at epoch `e`.  Faithful to the source order: build the checkpoint record from
the current `val_loss`; if the best condition holds, run the test evaluation,
update the best trackers and set `is_best`; on the 5-epoch cadence call
`save_ckp`; finally print the report carrying the current `test_loss`. -/
def epochBody (f : Nat → ℚ) (e : Nat) (v : ℚ) (s : LoopState) : LoopState :=
  let ckpt : Checkpoint := { epoch := e + 1, valid_loss_min := v }
  let isB := isBestCond s.bestValLoss v
  let s1 : LoopState :=
    if isB then
      { s with testLoss := some (f e), testRuns := s.testRuns ++ [e],
               bestEpoch := some e, bestValLoss := some v }
    else s
  let s2 : LoopState :=
    if (e + 1) % 5 == 0 then { s1 with saves := save_ckp ckpt isB s1.saves } else s1
  { s2 with reports := s2.reports ++ [(e + 1, s2.testLoss)] }

/-- Run the epoch loop from 0-indexed epoch `e` over the list `vs` of
per-epoch validation MAEs (main.py line 201: `for epoch in range(start_epoch,
args.epochs)`). -/
def runFrom (f : Nat → ℚ) : Nat → List ℚ → LoopState → LoopState
  | _, [], s => s
  | e, v :: vs, s => runFrom f (e + 1) vs (epochBody f e v s)

/-- Start-epoch resolution (main.py lines 182-189): 0, or the loaded
checkpoint's `epoch` field when resuming. -/
def startOfRun (resume : Option Checkpoint) : Nat :=
  match resume with
  | none => 0
  | some c => (load_ckp c).1

/-- Whole training run: resolve the start epoch from an optional resume
checkpoint, then loop from `initState` — main.py lines 198-199 set
`best_epoch`/`best_val_loss` to `None` regardless of any loaded
`valid_loss_min`. -/
def runTraining (f : Nat → ℚ) (resume : Option Checkpoint) (vs : List ℚ) : LoopState :=
  runFrom f (startOfRun resume) vs initState

/-- Best-tracker update for one epoch, as a fold step. -/
def stepMin (b : Option ℚ) (v : ℚ) : Option ℚ :=
  if isBestCond b v then some v else b

lemma epochBody_testRuns (f : Nat → ℚ) (e : Nat) (v : ℚ) (s : LoopState) :
    (epochBody f e v s).testRuns
      = s.testRuns ++ (if isBestCond s.bestValLoss v then [e] else []) := by
  unfold epochBody
  by_cases h : isBestCond s.bestValLoss v <;> simp [h] <;> split <;> simp

lemma epochBody_bestEpoch (f : Nat → ℚ) (e : Nat) (v : ℚ) (s : LoopState) :
    (epochBody f e v s).bestEpoch
      = (if isBestCond s.bestValLoss v then some e else s.bestEpoch) := by
  unfold epochBody
  by_cases h : isBestCond s.bestValLoss v <;> simp [h] <;> split <;> simp

lemma epochBody_bestValLoss (f : Nat → ℚ) (e : Nat) (v : ℚ) (s : LoopState) :
    (epochBody f e v s).bestValLoss = stepMin s.bestValLoss v := by
  unfold epochBody stepMin
  by_cases h : isBestCond s.bestValLoss v <;> simp [h] <;> split <;> simp

lemma epochBody_testLoss (f : Nat → ℚ) (e : Nat) (v : ℚ) (s : LoopState) :
    (epochBody f e v s).testLoss
      = (if isBestCond s.bestValLoss v then some (f e) else s.testLoss) := by
  unfold epochBody
  by_cases h : isBestCond s.bestValLoss v <;> simp [h] <;> split <;> simp

lemma epochBody_periodic (f : Nat → ℚ) (e : Nat) (v : ℚ) (s : LoopState) :
    (epochBody f e v s).saves.periodic
      = s.saves.periodic
          ++ (if (e + 1) % 5 == 0 then [⟨e + 1, v⟩] else []) := by
  unfold epochBody save_ckp
  by_cases h : isBestCond s.bestValLoss v <;> simp [h] <;> split <;> simp

lemma epochBody_best_saves (f : Nat → ℚ) (e : Nat) (v : ℚ) (s : LoopState) :
    (epochBody f e v s).saves.best
      = s.saves.best
          ++ (if isBestCond s.bestValLoss v && ((e + 1) % 5 == 0)
              then [⟨e + 1, v⟩] else []) := by
  unfold epochBody save_ckp
  by_cases h : isBestCond s.bestValLoss v <;>
    by_cases h5 : (e + 1) % 5 == 0 <;> simp [h, h5]

lemma epochBody_reports (f : Nat → ℚ) (e : Nat) (v : ℚ) (s : LoopState) :
    (epochBody f e v s).reports
      = s.reports
          ++ [(e + 1, if isBestCond s.bestValLoss v then some (f e) else s.testLoss)] := by
  unfold epochBody
  by_cases h : isBestCond s.bestValLoss v <;> simp [h] <;> split <;> simp

lemma runFrom_bestValLoss (f : Nat → ℚ) (vs : List ℚ) :
    ∀ (e : Nat) (s : LoopState),
      (runFrom f e vs s).bestValLoss = vs.foldl stepMin s.bestValLoss := by
  induction vs with
  | nil => intro e s; rfl
  | cons v vs ih =>
      intro e s
      simp only [runFrom, List.foldl_cons, ih, epochBody_bestValLoss]

lemma isBestCond_stepMin (b : Option ℚ) (u v : ℚ) :
    isBestCond (stepMin b u) v = true ↔ (isBestCond b v = true ∧ v ≤ u) := by
  cases b with
  | none => simp [stepMin, isBestCond]
  | some c =>
      have hb : stepMin (some c) u = if u ≤ c then some u else some c := by
        simp [stepMin, isBestCond]
      rw [hb]
      by_cases h : u ≤ c
      · simp only [h, if_true, isBestCond, decide_eq_true_eq]
        constructor
        · intro hv; exact ⟨le_trans hv h, hv⟩
        · intro hv; exact hv.2
      · simp only [h, if_false, isBestCond, decide_eq_true_eq]
        constructor
        · intro hv; exact ⟨hv, le_trans hv (le_of_not_le h)⟩
        · intro hv; exact hv.1

lemma isBestCond_foldl (vs : List ℚ) :
    ∀ (b : Option ℚ) (v : ℚ),
      isBestCond (vs.foldl stepMin b) v = true
        ↔ (isBestCond b v = true ∧ ∀ u ∈ vs, v ≤ u) := by
  induction vs with
  | nil => intro b v; simp
  | cons u vs ih =>
      intro b v
      rw [List.foldl_cons, ih, isBestCond_stepMin]
      constructor
      · rintro ⟨⟨h1, h2⟩, h3⟩
        exact ⟨h1, by intro x hx; rcases List.mem_cons.mp hx with rfl | hx
                      exacts [h2, h3 x hx]⟩
      · rintro ⟨h1, h2⟩
        exact ⟨⟨h1, h2 u (List.mem_cons_self u vs)⟩,
               fun x hx => h2 x (List.mem_cons_of_mem u hx)⟩

lemma isBestCond_runFrom (f : Nat → ℚ) (vs : List ℚ) (v : ℚ) :
    isBestCond (runFrom f 0 vs initState).bestValLoss v = true ↔ ∀ u ∈ vs, v ≤ u := by
  rw [runFrom_bestValLoss, show initState.bestValLoss = none from rfl,
    isBestCond_foldl]
  simp [isBestCond]

/-- Periodic-save records emitted by the loop starting at epoch `e` over the
validation losses `vs`, in order. -/
def periodicOf : Nat → List ℚ → List Checkpoint
  | _, [] => []
  | e, v :: vs => (if (e + 1) % 5 == 0 then [⟨e + 1, v⟩] else []) ++ periodicOf (e + 1) vs

lemma runFrom_periodic (f : Nat → ℚ) (vs : List ℚ) :
    ∀ (e : Nat) (s : LoopState),
      (runFrom f e vs s).saves.periodic = s.saves.periodic ++ periodicOf e vs := by
  induction vs with
  | nil => intro e s; simp [runFrom, periodicOf]
  | cons v vs ih =>
      intro e s
      simp only [runFrom, periodicOf, ih, epochBody_periodic, List.append_assoc]

lemma periodicOf_map (vs : List ℚ) :
    ∀ e : Nat,
      (periodicOf e vs).map Checkpoint.epoch
        = ((List.range vs.length).map (fun i => e + i + 1)).filter (fun k => k % 5 == 0) := by
  induction vs with
  | nil => intro e; simp [periodicOf]
  | cons v vs ih =>
      intro e
      rw [periodicOf, List.length_cons, List.range_succ_eq_map]
      rw [List.map_cons, List.map_map, List.filter_cons, List.map_append, ih]
      have hc : ((fun i => e + i + 1) ∘ Nat.succ) = fun i => (e + 1) + i + 1 := by
        funext i; simp [Function.comp]; omega
      by_cases h5 : (e + 1) % 5 == 0 <;> simp [h5, hc]

lemma periodicOf_mem (vs : List ℚ) :
    ∀ (e : Nat) (c : Checkpoint), c ∈ periodicOf e vs →
      ∃ i, vs.get? i = some c.valid_loss_min ∧ c.epoch = e + i + 1 := by
  induction vs with
  | nil => intro e c hc; simp [periodicOf] at hc
  | cons v vs ih =>
      intro e c hc
      rw [periodicOf, List.mem_append] at hc
      rcases hc with hc | hc
      · refine ⟨0, ?_, ?_⟩ <;>
          [skip; skip] <;>
          · rcases (by split at hc <;> simp_all : c = ⟨e + 1, v⟩) with rfl
            simp
      · rcases ih (e + 1) c hc with ⟨i, hi, he⟩
        exact ⟨i + 1, by simpa using hi, by omega⟩

/-- Invariant linking the `test_loss` variable to the most recent best epoch:
either no best epoch has occurred yet and `test_loss` is unassigned, or
`test_loss` holds the test MAE computed at the best epoch. -/
def TestInv (f : Nat → ℚ) (s : LoopState) : Prop :=
  (s.bestEpoch = none ∧ s.testLoss = none)
    ∨ ∃ b, s.bestEpoch = some b ∧ s.testLoss = some (f b)

lemma epochBody_TestInv (f : Nat → ℚ) (e : Nat) (v : ℚ) (s : LoopState)
    (h : TestInv f s) : TestInv f (epochBody f e v s) := by
  unfold TestInv
  rw [epochBody_bestEpoch, epochBody_testLoss]
  by_cases hb : isBestCond s.bestValLoss v
  · exact Or.inr ⟨e, by simp [hb]⟩
  · rcases h with ⟨h1, h2⟩ | ⟨b, h1, h2⟩
    · exact Or.inl (by simp [hb, h1, h2])
    · exact Or.inr ⟨b, by simp [hb, h1, h2]⟩

lemma runFrom_TestInv (f : Nat → ℚ) (vs : List ℚ) :
    ∀ (e : Nat) (s : LoopState), TestInv f s → TestInv f (runFrom f e vs s) := by
  induction vs with
  | nil => intro e s h; exact h
  | cons v vs ih =>
      intro e s h
      exact ih (e + 1) (epochBody f e v s) (epochBody_TestInv f e v s h)

/-- View of the model relevant to evaluation: its live parameter values and
its training/evaluation mode flag (`model.train()` sets it to `true`,
`model.eval()` would set it to `false`). -/
structure EvalModel where
  params : List ℚ
  training : Bool
deriving Repr

/-- EMA helper state as evaluation uses it: the shadow (averaged) parameter
values and the buffer holding the saved live values during an assign/resume
window. -/
structure EMA where
  shadow : List ℚ
  backup : List ℚ
deriving Repr

/-- Modelled from the spec: `EMA.assign` lives in utils.py, which is not under
src/.  Spec 4.1: save the model's current live values aside, then overwrite
the model's live values with the shadow values. -/
def EMA.assign (ema : EMA) (m : EvalModel) : EMA × EvalModel :=
  ({ ema with backup := m.params }, { m with params := ema.shadow })

/-- Modelled from the spec: `EMA.resume` lives in utils.py, which is not under
src/.  Spec 4.1: restore the live values saved by the most recent assign. -/
def EMA.resume (ema : EMA) (m : EvalModel) : EvalModel :=
  { m with params := ema.backup }

/-- Batch as the Evaluator consumes it: the model's per-example predictions as
a black-box function of the live parameters, and the aligned targets. -/
structure Batch where
  pred : List ℚ → List ℚ
  y : List ℚ

/-- Sum of absolute per-example errors in one batch:
`(output - data.y).abs().sum().item()` of main.py line 115. -/
def absErrSum (out y : List ℚ) : ℚ :=
  (List.zipWith (fun a b => |a - b|) out y).sum

/-- Result of one evaluation call: the returned MAE, the model and EMA state
after the call, and the model's mode flag in effect while the batch forward
passes ran. -/
structure TestResult where
  mae : ℚ
  model : EvalModel
  ema : EMA
  modeDuring : Bool
deriving Repr

/-- Evaluation routine `test(loader)` of main.py lines 108-117: assign the
shadow weights, accumulate the sum of absolute per-example errors over all
batches, resume the live weights, return the sum divided by the dataset size.
The body contains no `model.eval()` call, so the mode flag is carried through
unchanged. -/
def test (m : EvalModel) (ema : EMA) (loader : List Batch) (dataset_size : Nat) :
    TestResult :=
  let p := EMA.assign ema m
  let ema1 := p.1
  let m1 := p.2
  let error := (loader.map (fun d => absErrSum (d.pred m1.params) d.y)).sum
  let m2 := EMA.resume ema1 m1
  { mae := error / (dataset_size : ℚ), model := m2, ema := ema1,
    modeDuring := m1.training }

/-- Operations executed for one training batch, in source order
(main.py lines 206-221). -/
inductive BatchOp where
  | zeroGrad
  | forwardPass
  | lossBackward
  | clipGrad
  | optStep
  | schedStep
  | emaUpdate
deriving DecidableEq, BEq, Repr

/-- Trace of one iteration of the inner batch loop of main.py lines 206-221:
`optimizer.zero_grad()`, `output = model(data)`, `loss.backward()`,
`clip_grad_norm_`, `optimizer.step()`, `scheduler.step(curr_epoch)`,
`ema(model)`. -/
def batchTrace : List BatchOp :=
  [.zeroGrad, .forwardPass, .lossBackward, .clipGrad, .optStep, .schedStep, .emaUpdate]

/-- Fractional virtual epoch passed to the scheduler (main.py line 218):
`epoch + float(step) / (len(train_dataset) / args.batch_size)`, with the
denominator the exact (possibly fractional) quotient. -/
def curr_epoch (epoch step dataset_size batch_size : Nat) : ℚ :=
  (epoch : ℚ) + (step : ℚ) / ((dataset_size : ℚ) / (batch_size : ℚ))

/-- Modelled from the spec: the data loader is an excluded collaborator whose
code is not under src/; with `drop_last` unset it yields `⌈size/batch⌉`
batches per epoch, which is the number of batches `num_batches_per_epoch`
the spec's formula refers to. -/
def num_batches (dataset_size batch_size : Nat) : Nat :=
  (dataset_size + batch_size - 1) / batch_size

/-- Modelled from the spec: `GradualWarmupScheduler` comes from the external
`warmup_scheduler` package, not under src/.  Spec 4.2: while
`virtual_epoch < warmup_length` the rate is linearly interpolated from 0 to
`multiplier × base_rate`; at and after `warmup_length` control transfers to
the after-warmup policy, driven by the elapsed position past warmup. -/
def warmupRate (base multiplier warmup_length : ℚ) (afterRate : ℚ → ℚ) (ve : ℚ) : ℚ :=
  if ve < warmup_length then base * multiplier * (ve / warmup_length)
  else afterRate (ve - warmup_length)

/-- Scheduler as constructed in main.py lines 174-180:
`GradualWarmupScheduler(optimizer, multiplier=1.0, total_epoch=1,
after_scheduler=...)`. -/
def scheduler (base : ℚ) (afterRate : ℚ → ℚ) : ℚ → ℚ :=
  warmupRate base 1 1 afterRate

/-- C1 counterexample: in a one-epoch run the first epoch is flagged best
(`bestEpoch = some 0`), yet no best-artifact is written, because epoch 1 is
not a multiple of 5 — the best-epoch save IS skipped off the 5-epoch
cadence. -/
theorem c1_best_save_skipped_off_cadence :
    (runTraining (fun _ => 0) none [1]).bestEpoch = some 0
      ∧ (runTraining (fun _ => 0) none [1]).saves.best = [] := by
  decide

/-- C1 amended: the best-artifact save happens at an epoch iff the epoch is
flagged best AND lies on the 5-epoch cadence; off-cadence epochs write no
best-artifact even when flagged best. -/
theorem c1_best_save_iff_best_and_cadence (f : Nat → ℚ) (e : Nat) (v : ℚ)
    (s : LoopState) :
    ((e + 1) % 5 ≠ 0 → (epochBody f e v s).saves.best = s.saves.best)
      ∧ (isBestCond s.bestValLoss v = true → (e + 1) % 5 = 0 →
          (epochBody f e v s).saves.best = s.saves.best ++ [⟨e + 1, v⟩]) := by
  constructor
  · intro h5
    rw [epochBody_best_saves]
    simp [h5]
  · intro hb h5
    rw [epochBody_best_saves]
    simp [hb, h5]

/-- C1 witness for the amended theorem at epoch 4 (1-indexed epoch 5) from the
initial state. -/
theorem c1_witness :
    (epochBody (fun _ => 0) 4 1 initState).saves.best
      = initState.saves.best ++ [⟨4 + 1, 1⟩] :=
  (c1_best_save_iff_best_and_cadence (fun _ => 0) 4 1 initState).2 rfl rfl

/-- C2 counterexample: in the per-batch trace of main.py lines 206-221 the EMA
update does not precede the scheduler step, so the claimed order
optimizer → EMA → schedule is false for the concrete trace. -/
theorem c2_ema_not_before_sched :
    ¬ (batchTrace.indexOf BatchOp.optStep < batchTrace.indexOf BatchOp.emaUpdate
        ∧ batchTrace.indexOf BatchOp.emaUpdate < batchTrace.indexOf BatchOp.schedStep) := by
  decide

/-- C2 amended: for every batch the three operations execute strictly in the
order optimizer step, then scheduler step, then EMA shadow update. -/
theorem c2_batch_op_order :
    batchTrace.indexOf BatchOp.optStep < batchTrace.indexOf BatchOp.schedStep
      ∧ batchTrace.indexOf BatchOp.schedStep < batchTrace.indexOf BatchOp.emaUpdate := by
  decide

/-- C3 counterexample: with validation losses 1,2,2,2,2 the checkpoint written
after epoch 5 carries `valid_loss_min = 2` (the current epoch's loss) while
the best validation loss seen so far is 1 — the record does not carry the
running minimum. -/
theorem c3_checkpoint_not_min :
    (runTraining (fun _ => 0) none [1, 2, 2, 2, 2]).saves.periodic = [⟨5, 2⟩]
      ∧ (runTraining (fun _ => 0) none [1, 2, 2, 2, 2]).bestValLoss = some 1
      ∧ (2 : ℚ) ≠ 1 := by
  decide

/-- C3 amended: every checkpoint record written by the loop carries in
`valid_loss_min` the validation loss of its own (checkpointed) epoch, not the
running minimum. -/
theorem c3_checkpoint_carries_current_val_loss (f : Nat → ℚ) (vs : List ℚ)
    (c : Checkpoint) (hc : c ∈ (runFrom f 0 vs initState).saves.periodic) :
    vs.get? (c.epoch - 1) = some c.valid_loss_min := by
  rw [runFrom_periodic] at hc
  simp only [initState, List.nil_append] at hc
  rcases periodicOf_mem vs 0 c hc with ⟨i, hi, he⟩
  have : c.epoch - 1 = i := by omega
  rw [this]
  exact hi

/-- C3 witness for the amended theorem on a concrete 5-epoch run. -/
theorem c3_witness :
    [(1 : ℚ), 1, 1, 1, 1].get? ((5 : Nat) - 1) = some (1 : ℚ) :=
  c3_checkpoint_carries_current_val_loss (fun _ => 0) [1, 1, 1, 1, 1] ⟨5, 1⟩
    (by decide)

/-- C4 counterexample: calling `test` on a model in training mode performs the
batch forward passes still in training mode and returns the model in training
mode — the evaluation routine never sets the model to evaluation mode. -/
theorem c4_eval_mode_not_set :
    (test ⟨[1], true⟩ ⟨[2], []⟩ [] 1).modeDuring = true
      ∧ (test ⟨[1], true⟩ ⟨[2], []⟩ [] 1).model.training = true :=
  ⟨rfl, rfl⟩

/-- C4 amended: `test` assigns the EMA shadow weights, accumulates the sum of
absolute per-example prediction errors over all batches under those shadow
weights, restores the live weights, leaves the training/evaluation mode flag
unchanged, and returns the sum divided by the dataset size; on a 2-example
set with absolute errors 0.5 and 1.5 it returns exactly 1. -/
theorem c4_test_contract (m : EvalModel) (ema : EMA) (loader : List Batch)
    (n : Nat) :
    (test m ema loader n).mae
        = (loader.map (fun d => absErrSum (d.pred ema.shadow) d.y)).sum / (n : ℚ)
      ∧ (test m ema loader n).model.params = m.params
      ∧ (test m ema loader n).model.training = m.training
      ∧ (test ⟨[7], true⟩ ⟨[0], []⟩
            [⟨fun _ => [1/2], [0]⟩, ⟨fun _ => [3/2], [0]⟩] 2).mae = 1 := by
  refine ⟨rfl, rfl, rfl, ?_⟩
  norm_num [test, EMA.assign, EMA.resume, absErrSum, abs_of_nonneg]

/-- C5: test-set evaluation triggers unconditionally on the first epoch of the
loop; after processing any prefix of validation losses it triggers at the next
epoch iff its validation MAE is ≤ every previously observed one (ties
included); and when it triggers the best epoch and best validation loss are
updated to the current epoch. -/
theorem c5_test_trigger_iff_new_min (f : Nat → ℚ) (prev : List ℚ) (v : ℚ)
    (e : Nat) :
    (epochBody f e v initState).testRuns = initState.testRuns ++ [e]
      ∧ ((epochBody f e v (runFrom f 0 prev initState)).testRuns
            = (runFrom f 0 prev initState).testRuns ++ [e] ↔ ∀ u ∈ prev, v ≤ u)
      ∧ ((∀ u ∈ prev, v ≤ u) →
          (epochBody f e v (runFrom f 0 prev initState)).bestEpoch = some e
            ∧ (epochBody f e v (runFrom f 0 prev initState)).bestValLoss = some v) := by
  refine ⟨?_, ?_, ?_⟩
  · rw [epochBody_testRuns]
    simp [initState, isBestCond]
  · rw [epochBody_testRuns]
    by_cases hb : isBestCond (runFrom f 0 prev initState).bestValLoss v
    · exact iff_of_true (by simp [hb]) ((isBestCond_runFrom f prev v).mp hb)
    · refine iff_of_false ?_ fun h => hb ((isBestCond_runFrom f prev v).mpr h)
      simp only [hb, if_false, Bool.false_eq_true, List.append_nil]
      intro heq
      have := congrArg List.length heq
      simp at this
  · intro h
    have hb := (isBestCond_runFrom f prev v).mpr h
    rw [epochBody_bestEpoch, epochBody_bestValLoss]
    simp [hb, stepMin]

/-- C5 witness: after validation losses 2 and 3, a validation loss of 1 at
epoch 7 triggers and updates the best epoch. -/
theorem c5_witness :
    (epochBody (fun _ => (0 : ℚ)) 7 1 (runFrom (fun _ => (0 : ℚ)) 0 [2, 3] initState)).bestEpoch
      = some 7 :=
  ((c5_test_trigger_iff_new_min (fun _ => (0 : ℚ)) [2, 3] 1 7).2.2 (by decide)).1

/-- C6 counterexample: with 3 training examples and batch size 2 the loader
yields 2 batches, but at step 1 of epoch 0 the code passes
`0 + 1/(3/2) = 2/3` to the scheduler, not `0 + 1/2`. -/
theorem c6_virtual_epoch_mismatch :
    curr_epoch 0 1 3 2 ≠ (0 : ℚ) + 1 / (num_batches 3 2 : ℚ) := by
  norm_num [curr_epoch, num_batches]

/-- C6 amended: the fractional virtual epoch passed to the scheduler equals
`epoch + step × batch_size / dataset_size` (exact division by the possibly
fractional quotient `dataset_size / batch_size`); it equals
`epoch + step / num_batches_per_epoch` when the batch size divides the
dataset size. -/
theorem c6_virtual_epoch_formula (e st n b : Nat) :
    (curr_epoch e st n b = (e : ℚ) + (st : ℚ) * (b : ℚ) / (n : ℚ))
      ∧ (b ∣ n → b ≠ 0 →
          curr_epoch e st n b = (e : ℚ) + (st : ℚ) / (num_batches n b : ℚ)) := by
  constructor
  · unfold curr_epoch
    rw [div_div_eq_mul_div]
  · rintro ⟨k, rfl⟩ hb
    have hb1 : 1 ≤ b := Nat.one_le_iff_ne_zero.mpr hb
    have hnb : num_batches (b * k) b = k := by
      unfold num_batches
      have h1 : b * k + b - 1 = (b - 1) + b * k := by omega
      rw [h1, Nat.add_mul_div_left _ _ (by omega : 0 < b),
        Nat.div_eq_of_lt (by omega), Nat.zero_add]
    rw [hnb]
    unfold curr_epoch
    have hbq : (b : ℚ) ≠ 0 := Nat.cast_ne_zero.mpr hb
    rw [Nat.cast_mul, mul_div_cancel_left₀ _ hbq]

/-- C6 witness: with 4 examples and batch size 2, the code's virtual epoch at
step 1 of epoch 0 equals `0 + 1 / num_batches`. -/
theorem c6_witness :
    curr_epoch 0 1 4 2 = ((0 : Nat) : ℚ) + ((1 : Nat) : ℚ) / (num_batches 4 2 : ℚ) :=
  (c6_virtual_epoch_formula 0 1 4 2).2 ⟨2, rfl⟩ (by norm_num)

/-- C7: over a whole run the periodic checkpoint is written exactly at the
1-indexed epochs that are multiples of 5 and at no others, independent of
which epochs are best. -/
theorem c7_periodic_save_cadence (f : Nat → ℚ) (vs : List ℚ) :
    (runFrom f 0 vs initState).saves.periodic.map Checkpoint.epoch
      = ((List.range vs.length).map (fun i => i + 1)).filter (fun k => k % 5 == 0) := by
  rw [runFrom_periodic]
  simp only [initState, List.nil_append]
  rw [periodicOf_map]
  have : (fun i => 0 + i + 1) = (fun i : Nat => i + 1) := by
    funext i; omega
  rw [this]

/-- C8: while the virtual epoch is in `[0, warmup_length)` the composed
scheduler produces `base_rate × multiplier × (virtual_epoch / warmup_length)`;
at `virtual_epoch = warmup_length` it hands off to the after-warmup policy's
rate at its epoch 0; and as constructed in main.py (multiplier 1, warmup
length 1) the warmup rate is `base × virtual_epoch`. -/
theorem c8_warmup_rate (base mult wl : ℚ) (afterRate : ℚ → ℚ) (ve : ℚ) :
    (0 ≤ ve → ve < wl → warmupRate base mult wl afterRate ve = base * mult * (ve / wl))
      ∧ warmupRate base mult wl afterRate wl = afterRate 0
      ∧ (0 ≤ ve → ve < 1 → scheduler base afterRate ve = base * ve) := by
  refine ⟨fun _ h => if_pos h, ?_, fun _ h => ?_⟩
  · unfold warmupRate
    rw [if_neg (lt_irrefl wl), sub_self]
  · unfold scheduler warmupRate
    rw [if_pos h]
    ring

/-- C8 witness: half-way through a warmup of length 2 with base rate 2 and
multiplier 3 the produced rate is `2 × 3 × (1/2)`. -/
theorem c8_witness :
    warmupRate 2 3 2 (fun _ => 5) 1 = 2 * 3 * ((1 : ℚ) / 2) :=
  (c8_warmup_rate 2 3 2 (fun _ => 5) 1).1 (by norm_num) (by norm_num)

/-- C9: resuming from a checkpoint discards the loaded `valid_loss_min` for
best-model tracking: the run restarts from the loop state whose best trackers
are `none`, so the first epoch after resume triggers test evaluation and is
flagged best even when its validation MAE exceeds the pre-resume minimum. -/
theorem c9_resume_discards_loaded_min (c : Checkpoint) (f : Nat → ℚ) (v : ℚ)
    (vs : List ℚ) (_h : c.valid_loss_min < v) :
    runTraining f (some c) (v :: vs)
        = runFrom f (c.epoch + 1) vs (epochBody f c.epoch v initState)
      ∧ (epochBody f c.epoch v initState).bestEpoch = some c.epoch
      ∧ (epochBody f c.epoch v initState).bestValLoss = some v
      ∧ (epochBody f c.epoch v initState).testRuns = [c.epoch] := by
  refine ⟨rfl, ?_, ?_, ?_⟩
  · rw [epochBody_bestEpoch]; simp [initState, isBestCond]
  · rw [epochBody_bestValLoss]; simp [initState, stepMin, isBestCond]
  · rw [epochBody_testRuns]; simp [initState, isBestCond]

/-- C9 witness: resuming from a checkpoint with stored minimum 1, a first
post-resume validation MAE of 2 still marks the first epoch best. -/
theorem c9_witness :
    (epochBody (fun _ => (0 : ℚ)) 3 2 initState).bestEpoch = some 3 :=
  (c9_resume_discards_loaded_min ⟨3, 1⟩ (fun _ => (0 : ℚ)) 2 [] (by norm_num)).2.1

/-- C10: on an epoch whose validation MAE is not a new minimum, no test-set
evaluation runs, the `test_loss` variable is unchanged, and the console report
printed for that epoch carries the unchanged value; and in any run from the
start, `test_loss` always equals the test MAE computed at the most recent
best epoch. -/
theorem c10_no_test_on_non_best (f : Nat → ℚ) (e : Nat) (v : ℚ) (s : LoopState) :
    (isBestCond s.bestValLoss v = false →
        (epochBody f e v s).testRuns = s.testRuns
          ∧ (epochBody f e v s).testLoss = s.testLoss
          ∧ (epochBody f e v s).reports = s.reports ++ [(e + 1, s.testLoss)])
      ∧ (∀ (vs : List ℚ) (b : Nat),
          (runFrom f 0 vs initState).bestEpoch = some b →
          (runFrom f 0 vs initState).testLoss = some (f b)) := by
  constructor
  · intro h
    rw [epochBody_testRuns, epochBody_testLoss, epochBody_reports]
    simp [h]
  · intro vs b hb
    have hinv := runFrom_TestInv f vs 0 initState (Or.inl ⟨rfl, rfl⟩)
    rcases hinv with ⟨h1, _⟩ | ⟨b', h1, h2⟩
    · rw [h1] at hb; cases hb
    · rw [h1] at hb
      cases hb
      exact h2

/-- C10 witness: a validation MAE of 2 against a best-so-far of 1 leaves the
test runs unchanged, and in the concrete run with validation losses 5 then 3
the reported test loss is the one computed at the best epoch 1. -/
theorem c10_witness :
    (epochBody (fun _ => (9 : ℚ)) 1 2
        ⟨some 0, some 1, some 9, [0], ⟨[], []⟩, []⟩).testRuns
        = (⟨some 0, some 1, some 9, [0], ⟨[], []⟩, []⟩ : LoopState).testRuns
      ∧ (runFrom (fun _ => (9 : ℚ)) 0 [5, 3] initState).testLoss = some 9 :=
  ⟨((c10_no_test_on_non_best (fun _ => (9 : ℚ)) 1 2
      ⟨some 0, some 1, some 9, [0], ⟨[], []⟩, []⟩).1 (by decide)).1,
    (c10_no_test_on_non_best (fun _ => (9 : ℚ)) 0 0
      ⟨none, none, none, [], ⟨[], []⟩, []⟩).2 [5, 3] 1 (by decide)⟩

end MXMNet
